import Mathlib

/-!
Verification development for the ARK SA mod-data extractor (`mod_parser.py`).

The Python source is shallowly embedded below: pure functions become Lean
functions, machine/byte arithmetic is `Nat` with explicit reduction modulo
`2 ^ 32`, Python `float`-valued crafting quantities are modelled as exact
rationals (`Rat`), Python's insertion-ordered `dict` becomes an ordered
association list, and the file-system effects of package finalization become
explicit state passing over a small file-system record.
-/

/-! ### SHA-1 and version-5 UUIDs

`ModParser.uuid_from_path` calls Python's `uuid.uuid5`, which is the SHA-1
hash of the namespace bytes followed by the UTF-8 name bytes, truncated to
16 bytes with the version/variant bits forced.  The full algorithm is
embedded so that identifier values are computable. -/

/-- Left-rotate a 32-bit word (a `Nat` below `2 ^ 32`) by `k` bits. -/
def rotl32 (x k : Nat) : Nat :=
  ((x <<< k) % 4294967296) ||| (x >>> (32 - k))

/-- The SHA-1 round function for round `i`. -/
def sha1F (i b c d : Nat) : Nat :=
  if i < 20 then (b &&& c) ||| ((b ^^^ 4294967295) &&& d)
  else if i < 40 then (b ^^^ c) ^^^ d
  else if i < 60 then ((b &&& c) ||| (b &&& d)) ||| (c &&& d)
  else (b ^^^ c) ^^^ d

/-- The SHA-1 round constant for round `i`. -/
def sha1K (i : Nat) : Nat :=
  if i < 20 then 1518500249
  else if i < 40 then 1859775393
  else if i < 60 then 2400959708
  else 3395469782

/-- Big-endian grouping of bytes into 32-bit words. -/
def bytesToWords : List Nat → List Nat
  | b0 :: b1 :: b2 :: b3 :: rest =>
      (((b0 * 256 + b1) * 256 + b2) * 256 + b3) :: bytesToWords rest
  | _ => []

/-- Extend the (reversed) message schedule by `n` further words. -/
def sha1ExtendRev : Nat → List Nat → List Nat
  | 0, acc => acc
  | n + 1, acc =>
      let w := rotl32 (((acc.getD 2 0) ^^^ (acc.getD 7 0)) ^^^
        ((acc.getD 13 0) ^^^ (acc.getD 15 0))) 1
      sha1ExtendRev n (w :: acc)

/-- One SHA-1 round: state `(a, b, c, d, e)` against indexed schedule word. -/
def sha1Round (st : Nat × Nat × Nat × Nat × Nat) (iw : Nat × Nat) :
    Nat × Nat × Nat × Nat × Nat :=
  match st, iw with
  | (a, b, c, d, e), (i, w) =>
      ((rotl32 a 5 + sha1F i b c d + e + sha1K i + w) % 4294967296,
        a, rotl32 b 30, c, d)

/-- Compress one 64-byte chunk into the running hash state. -/
def sha1Chunk (h : Nat × Nat × Nat × Nat × Nat) (chunk : List Nat) :
    Nat × Nat × Nat × Nat × Nat :=
  let ws := bytesToWords chunk
  let sched := (sha1ExtendRev 64 ws.reverse).reverse
  match h, sched.enum.foldl sha1Round h with
  | (h0, h1, h2, h3, h4), (a, b, c, d, e) =>
      ((h0 + a) % 4294967296, (h1 + b) % 4294967296, (h2 + c) % 4294967296,
        (h3 + d) % 4294967296, (h4 + e) % 4294967296)

/-- The 64-bit big-endian byte encoding of the bit length of an `l`-byte
message. -/
def sha1LenBytes (l : Nat) : List Nat :=
  (List.range 8).map (fun i => ((8 * l) >>> (8 * (7 - i))) % 256)

/-- SHA-1 padding: `0x80`, zeros to 56 mod 64, then the 64-bit bit length. -/
def sha1Pad (msg : List Nat) : List Nat :=
  msg ++ [128] ++ List.replicate ((119 - msg.length % 64) % 64) 0 ++
    sha1LenBytes msg.length

/-- Fold the compression function over `n` chunks of the padded message. -/
def sha1Chunks : Nat → List Nat → Nat × Nat × Nat × Nat × Nat →
    Nat × Nat × Nat × Nat × Nat
  | 0, _, h => h
  | n + 1, bs, h => sha1Chunks n (bs.drop 64) (sha1Chunk h (bs.take 64))

/-- Big-endian bytes of a 32-bit word. -/
def word32Bytes (w : Nat) : List Nat :=
  [(w >>> 24) % 256, (w >>> 16) % 256, (w >>> 8) % 256, w % 256]

/-- The 20-byte SHA-1 digest of a byte list. -/
def sha1 (msg : List Nat) : List Nat :=
  let p := sha1Pad msg
  match sha1Chunks (p.length / 64) p
      (1732584193, 4023233417, 2562383102, 271733878, 3285377520) with
  | (h0, h1, h2, h3, h4) =>
      word32Bytes h0 ++ word32Bytes h1 ++ word32Bytes h2 ++
        word32Bytes h3 ++ word32Bytes h4

/-- Lower-case hexadecimal digit. -/
def hexDigit (n : Nat) : Char :=
  if n < 10 then Char.ofNat (48 + n) else Char.ofNat (87 + n)

/-- Two lower-case hex digits of a byte. -/
def byteHex (b : Nat) : List Char :=
  [hexDigit (b / 16), hexDigit (b % 16)]

/-- Lower-case hex string of a byte list. -/
def bytesHex (bs : List Nat) : String :=
  ⟨bs.foldr (fun b acc => byteHex b ++ acc) []⟩

/-- The bytes of the fixed namespace UUID
`82aa4465-85f9-4b9e-8d36-f66164cef0a6` (`BEACON_NAMESPACE` in the source). -/
def BEACON_NAMESPACE_BYTES : List Nat :=
  [130, 170, 68, 101, 133, 249, 75, 158, 141, 54, 246, 97, 100, 206, 240, 166]

/-- UTF-8 bytes of a string; the paths and identifiers fed to the hash are
ASCII, for which the code-point list is the UTF-8 encoding. -/
def strBytes (s : String) : List Nat := s.data.map Char.toNat

/-- The 16 bytes of a version-5 UUID: truncated SHA-1 of namespace bytes
followed by name bytes, with version nibble forced to 5 and the RFC 4122
variant bits forced on byte 8. -/
def uuid5Bytes (ns name : List Nat) : List Nat :=
  ((sha1 (ns ++ name)).take 16).enum.map (fun p =>
    if p.1 = 6 then (p.2 &&& 15) ||| 80
    else if p.1 = 8 then (p.2 &&& 63) ||| 128
    else p.2)

/-- Standard 8-4-4-4-12 textual form of a 16-byte UUID. -/
def uuidFormat (bs : List Nat) : String :=
  bytesHex (bs.take 4) ++ "-" ++ bytesHex ((bs.drop 4).take 2) ++ "-" ++
    bytesHex ((bs.drop 6).take 2) ++ "-" ++ bytesHex ((bs.drop 8).take 2) ++
    "-" ++ bytesHex (bs.drop 10)

/-- `str(uuid.uuid5(BEACON_NAMESPACE, name))` for an ASCII `name`. -/
def uuid5 (name : String) : String :=
  uuidFormat (uuid5Bytes BEACON_NAMESPACE_BYTES (strBytes name))

/-! ### Python string and number primitives used by the source -/

/-- Python `s.startswith(p)`. -/
def pyStartswith (s p : String) : Bool := p.data.isPrefixOf s.data

/-- Python `s[:-2]`: all but the last two characters (empty-safe). -/
def sliceDropLast2 (s : String) : String := ⟨s.data.take (s.data.length - 2)⟩

/-- Python `int(x)` on a numeric `x`, modelled on exact rationals: conversion
to an integer by truncation toward zero. -/
def pyInt (q : Rat) : Int := q.num.tdiv q.den

/-- Python `str(b)` for a boolean. -/
def pyBoolStr (b : Bool) : String := if b then "True" else "False"

/-- Python `s.lower()`.  The identifiers and asset paths the source
lowercases are ASCII, for which per-character ASCII lowercasing coincides
with Python's Unicode lowercasing. -/
def pyLower (s : String) : String := ⟨s.data.map Char.toLower⟩

/-! ### Ownership mapping and identifier derivation

`ModParser.content_pack_ids` is an insertion-ordered Python `dict` from path
prefixes to content-pack ids; it is modelled as an ordered association
list.  `uuid_from_path` walks it in order and returns the first match. -/

/-- `BASE_CONTENT_PACK_ID` from the source. -/
def BASE_CONTENT_PACK_ID : String := "b32a3d73-9406-56f2-bd8f-936ee0275249"

/-- The initial `ModParser.content_pack_ids` table. -/
def baseContentPackIds : List (String × String) :=
  [("/Game/", BASE_CONTENT_PACK_ID), ("/Packs/", BASE_CONTENT_PACK_ID)]

/-- Python `d[k] = v` on an insertion-ordered `dict`: replaces the value in
place when the key is present, otherwise appends the pair at the end. -/
def dictInsert (d : List (String × String)) (k v : String) :
    List (String × String) :=
  if d.any (fun p => p.1 == k) then
    d.map (fun p => if p.1 == k then (k, v) else p)
  else d ++ [(k, v)]

/-- The ownership table after `parse_arguments` in beacon mode:
`self.content_pack_ids[args.mod_root_folder] = args.content_pack_id`. -/
def beaconContentPackIds (modRootFolder contentPackId : String) :
    List (String × String) :=
  dictInsert baseContentPackIds modRootFolder contentPackId

/-- `ModParser.uuid_from_path`: walk the ownership table in order; on the
first prefix match return the v5 UUID of
`f"{content_pack_id.lower()}:{path.lower()}"`; otherwise `None`. -/
def uuid_from_path : List (String × String) → String → Option String
  | [], _ => none
  | (pfx, cid) :: rest, path =>
    if pyStartswith path pfx then
      some (uuid5 (pyLower cid ++ ":" ++ pyLower path))
    else uuid_from_path rest path

/-- The content-pack id of the first matching prefix of the ownership
table, if any (the loop structure of `uuid_from_path` without the hash). -/
def firstMatchId : List (String × String) → String → Option String
  | [], _ => none
  | (pfx, cid) :: rest, path =>
    if pyStartswith path pfx then some cid else firstMatchId rest path

/-! ### Record model (`EngramEntry`, `PrimalItem`) -/

/-- `EngramEntry.engram_data` as parsed by `parse_engram`. -/
structure EngramEntryData where
  engram_class_name : String
  required_level : Int
  required_engram_points : Int
deriving DecidableEq

/-- The fields of `crafting_requirement.resource_item_type` that the source
reads: its full path name, and the `descriptive_name_base` of its
class-default object (read when the resource is itself wrapped in a
`PrimalItem` for the display-name lookup). -/
structure ResourceItemType where
  path_name : String
  descriptive_name_base : String
deriving DecidableEq

/-- One raw entry of `base_crafting_resource_requirements`.  The base
quantity is a Python float in the source, modelled as an exact rational. -/
structure CraftingRequirementData where
  resource_item_type : ResourceItemType
  base_resource_requirement : Rat
  crafting_require_exact_resource_type : Bool
deriving DecidableEq

/-- The raw backing item: its full path name and the fields `PrimalItem`
reads off its class-default object. -/
structure PrimalItemRaw where
  path_name : String
  descriptive_name_base : String
  can_be_blueprint : Bool
  max_item_quantity : Int
  base_crafting_resource_requirements : List CraftingRequirementData
deriving DecidableEq

/-- `PrimalItem.primal_item_data` as built by `parse_primal_item`. -/
structure PrimalItemData where
  primal_item_path : String
  primal_item_name : String
  blueprintable : Bool
  stack_size : Int
  crafting_requirements : List CraftingRequirementData
deriving DecidableEq

/-- `PrimalItem.parse_primal_item`: the stored path is
`primal_item.get_path_name()[:-2]`. -/
def parse_primal_item (raw : PrimalItemRaw) : PrimalItemData :=
  { primal_item_path := sliceDropLast2 raw.path_name
    primal_item_name := raw.descriptive_name_base
    blueprintable := raw.can_be_blueprint
    stack_size := raw.max_item_quantity
    crafting_requirements := raw.base_crafting_resource_requirements }

/-- `PrimalItem(resource_item_type)["primal_item_name"]`: wrapping a
resource reference in a `PrimalItem` and reading its name yields the
`descriptive_name_base` of the resource's class-default object. -/
def resourcePrimalItemName (r : ResourceItemType) : String :=
  r.descriptive_name_base

/-! ### Parser environment (`ModParser` state after `parse_arguments`) -/

/-- The `ModParser` state the builders read: the ownership table, the
beacon-mode `mod_data` fields, and the output directory. -/
structure ModEnv where
  content_pack_ids : List (String × String)
  content_pack_id : String
  mod_id : String
  mod_name : String
  output_dir : String
deriving DecidableEq

/-! ### BeaconBuilder -/

/-- One entry of the package-schema `recipe` array built by
`BeaconBuilder.add_engram` (identifier, quantity, exact flag only). -/
structure BeaconRequirement where
  engramId : Option String
  quantity : Int
  exact : Bool
deriving DecidableEq

/-- One package-schema engram as assembled by `BeaconBuilder.add_engram`.
`lastUpdate` is `time.time()` at accumulation time, passed in explicitly. -/
structure BeaconEngram where
  group : String
  engramId : Option String
  label : String
  alternateLabel : Option String
  tags : List String
  availability : Int
  path : String
  minVersion : Int
  lastUpdate : Rat
  contentPackId : String
  contentPackName : String
  entryString : String
  requiredLevel : Int
  requiredPoints : Int
  stackSize : Int
  recipe : List BeaconRequirement
deriving DecidableEq

/-- The projection of one crafting requirement inside
`BeaconBuilder.add_engram`'s recipe loop. -/
def beaconRequirementOf (env : ModEnv) (cr : CraftingRequirementData) :
    BeaconRequirement :=
  { engramId := uuid_from_path env.content_pack_ids
      (sliceDropLast2 cr.resource_item_type.path_name)
    quantity := pyInt cr.base_resource_requirement
    exact := cr.crafting_require_exact_resource_type }

/-- The engram dictionary built by `BeaconBuilder.add_engram` for one
`(engram, primal_item)` pair: tags start empty and `"blueprintable"` is
appended exactly when the item's blueprintable flag is set. -/
def beaconEngramOf (env : ModEnv) (now : Rat) (engram : EngramEntryData)
    (item : PrimalItemData) : BeaconEngram :=
  { group := "engrams"
    engramId := uuid_from_path env.content_pack_ids item.primal_item_path
    label := item.primal_item_name
    alternateLabel := none
    tags := if item.blueprintable then ["blueprintable"] else []
    availability := 3
    path := item.primal_item_path
    minVersion := 20000000
    lastUpdate := now
    contentPackId := env.content_pack_id
    contentPackName := env.mod_name
    entryString := engram.engram_class_name
    requiredLevel := engram.required_level
    requiredPoints := engram.required_engram_points
    stackSize := item.stack_size
    recipe := item.crafting_requirements.map (beaconRequirementOf env) }

/-- `BeaconBuilder.add_engram`: `self.engrams.append(engram)`. -/
def BeaconBuilder.add_engram (env : ModEnv) (now : Rat)
    (engrams : List BeaconEngram) (engram : EngramEntryData)
    (item : PrimalItemData) : List BeaconEngram :=
  engrams ++ [beaconEngramOf env now engram item]

/-- The content-pack header entry built by `BeaconBuilder.build`. -/
structure ContentPackEntry where
  contentPackId : String
  gameId : String
  marketplace : String
  marketplaceId : String
  name : String
  isConsoleSafe : Bool
  isDefaultEnabled : Bool
  minVersion : Int
  lastUpdate : Rat
deriving DecidableEq

/-- The document `BeaconBuilder.build` serializes:
`{"payloads": [{"gameId", "contentPacks"}, {"gameId", "engrams"}]}`. -/
structure BeaconContent where
  contentPacks : List ContentPackEntry
  engrams : List BeaconEngram
deriving DecidableEq

/-- `BeaconBuilder.build`'s in-memory document before serialization. -/
def BeaconBuilder.build_content (env : ModEnv) (now : Rat)
    (engrams : List BeaconEngram) : BeaconContent :=
  { contentPacks := [{
      contentPackId := env.content_pack_id
      gameId := "ArkSA"
      marketplace := "CurseForge"
      marketplaceId := env.mod_id
      name := env.mod_name
      isConsoleSafe := false
      isDefaultEnabled := false
      minVersion := 20000000
      lastUpdate := now }]
    engrams := engrams }

/-! ### StandardBuilder and CSVBuilder -/

/-- One recipe entry of `StandardBuilder.add_engram`: the loop resolves
`friendly_resource_name` by constructing `PrimalItem(resource_item_type)`
and reading its `primal_item_name`. -/
structure StandardRequirement where
  friendly_resource_name : String
  resource : String
  quantity : Int
  exact : Bool
deriving DecidableEq

/-- One engram dictionary stored by `StandardBuilder.add_engram`. -/
structure StandardEngram where
  name : String
  path : String
  stackSize : Int
  entryString : String
  requiredLevel : Int
  requiredPoints : Int
  recipe : List StandardRequirement
deriving DecidableEq

/-- The projection of one crafting requirement inside
`StandardBuilder.add_engram`'s recipe loop. -/
def standardRequirementOf (cr : CraftingRequirementData) :
    StandardRequirement :=
  { friendly_resource_name := resourcePrimalItemName cr.resource_item_type
    resource := sliceDropLast2 cr.resource_item_type.path_name
    quantity := pyInt cr.base_resource_requirement
    exact := cr.crafting_require_exact_resource_type }

/-- The engram dictionary built by `StandardBuilder.add_engram` for one
`(engram, primal_item)` pair. -/
def standardEngramOf (engram : EngramEntryData) (item : PrimalItemData) :
    StandardEngram :=
  { name := item.primal_item_name
    path := item.primal_item_path
    stackSize := item.stack_size
    entryString := engram.engram_class_name
    requiredLevel := engram.required_level
    requiredPoints := engram.required_engram_points
    recipe := item.crafting_requirements.map standardRequirementOf }

/-- `StandardBuilder.add_engram`: `self.engrams.append(engram)`.
`CSVBuilder` inherits this accumulation unchanged. -/
def StandardBuilder.add_engram (engrams : List StandardEngram)
    (engram : EngramEntryData) (item : PrimalItemData) :
    List StandardEngram :=
  engrams ++ [standardEngramOf engram item]

/-- The document `StandardBuilder.build` serializes: `{"engrams": [...]}`. -/
structure StandardContent where
  engrams : List StandardEngram
deriving DecidableEq

/-- `StandardBuilder.build`'s in-memory document before serialization. -/
def StandardBuilder.build_content (engrams : List StandardEngram) :
    StandardContent :=
  { engrams := engrams }

/-- `CSVBuilder.dump`'s fixed header row (`fields`). -/
def csvHeader : List String :=
  ["Item Name", "Item Path", "Max Stack Size", "Engram Class Name",
    "Required Level", "Required Engram Points", "Crafting Recipe"]

/-- One line of the recipe cell:
`f"{resource} x{quantity} (Exact: {exact})"`. -/
def csvIngredientLine (ing : StandardRequirement) : String :=
  ing.friendly_resource_name ++ " x" ++ toString ing.quantity ++
    " (Exact: " ++ pyBoolStr ing.exact ++ ")"

/-- The recipe cell of one row: the per-requirement lines joined by
`"\n"` in recipe order. -/
def csvRecipeCell (e : StandardEngram) : String :=
  String.intercalate "\n" (e.recipe.map csvIngredientLine)

/-- One data row written by `CSVBuilder.dump` (the csv writer stringifies
the non-string cells). -/
def csvRowOf (e : StandardEngram) : List String :=
  [e.name, e.path, toString e.stackSize, e.entryString,
    toString e.requiredLevel, toString e.requiredPoints, csvRecipeCell e]

/-- All rows written by `CSVBuilder.dump`, header first, then one row per
accumulated engram in order. -/
def CSVBuilder.rows (engrams : List StandardEngram) : List (List String) :=
  csvHeader :: engrams.map csvRowOf

/-! ### File-system effects of package finalization

`BeaconBuilder.dump` touches the file system through `Utils`; those
primitives are embedded as explicit state passing over a file-system
record (directory list, file list, a counter for fresh temporary names).
An exception raised while the archive members are being added is modelled
by the `writeFails` flag of `create_beacondata`. -/

/-- The file-system state visible to `BeaconBuilder.dump`. -/
structure FS where
  nextTmp : Nat
  dirs : List String
  files : List String
deriving DecidableEq

/-- `Utils.make_tmp_dir` / `tempfile.mkdtemp`: creates and returns a fresh
temporary directory. -/
def Utils.make_tmp_dir (fs : FS) : String × FS :=
  ("/tmp/beacon" ++ toString fs.nextTmp,
    { fs with nextTmp := fs.nextTmp + 1,
              dirs := fs.dirs ++ ["/tmp/beacon" ++ toString fs.nextTmp] })

/-- `Utils.dump_to_file`: writes `os.path.join(tmp_dir, file_name)`. -/
def Utils.dump_to_file (fs : FS) (dir file : String) : FS :=
  { fs with files := fs.files ++ [dir ++ "/" ++ file] }

/-- `Utils.remove_tmp_dir` / `shutil.rmtree`: removes the directory and
everything under it. -/
def Utils.remove_tmp_dir (fs : FS) (dir : String) : FS :=
  { fs with dirs := fs.dirs.filter (fun d => d != dir),
            files := fs.files.filter (fun f => !pyStartswith f (dir ++ "/")) }

/-- `Utils.create_beacondata`: `tarfile.open(output_path, "w:gz")` creates
the archive file at the destination as soon as the stream opens; when an
exception interrupts the member-adding loop (`writeFails`), the
`with`-statement closes the stream but the partial archive file stays on
disk and the exception propagates. -/
def Utils.create_beacondata (fs : FS) (outputPath : String)
    (writeFails : Bool) : Except String Unit × FS :=
  (if writeFails then Except.error "write failure" else Except.ok (),
    { fs with files := fs.files ++ [outputPath] })

/-- `BeaconBuilder.dump`, straight-line as in the source: make a temporary
directory, write the content-pack JSON and `Manifest.json` into it, archive
it to `{output_dir}/{mod_name}.beacondata`, then remove the temporary
directory.  The source wraps none of this in `try`/`finally`, so when
`create_beacondata` raises, the error propagates with no cleanup step. -/
def BeaconBuilder.dump (env : ModEnv) (writeFails : Bool) (fs : FS) :
    Except String String × FS :=
  match Utils.make_tmp_dir fs with
  | (temp_dir, fs1) =>
    let fs2 := Utils.dump_to_file fs1 temp_dir (env.content_pack_id ++ ".json")
    let fs3 := Utils.dump_to_file fs2 temp_dir "Manifest.json"
    let output_file_path := env.output_dir ++ "/" ++ env.mod_name ++ ".beacondata"
    match Utils.create_beacondata fs3 output_file_path writeFails with
    | (Except.error e, fs4) => (Except.error e, fs4)
    | (Except.ok _, fs4) =>
        (Except.ok output_file_path, Utils.remove_tmp_dir fs4 temp_dir)

/-! ### Sample concrete inputs used by witnesses and counterexamples -/

/-- A parser environment with the initial ownership table. -/
def sampleEnv : ModEnv :=
  { content_pack_ids := baseContentPackIds
    content_pack_id := "cp"
    mod_id := "42"
    mod_name := "MyMod"
    output_dir := "/out" }

/-- A resource reference whose class-default display name is `Stone`. -/
def sampleResource : ResourceItemType :=
  { path_name := "/Game/Stone.Stone_C", descriptive_name_base := "Stone" }

/-- A crafting requirement with fractional base quantity `3.9`. -/
def sampleReq : CraftingRequirementData :=
  { resource_item_type := sampleResource
    base_resource_requirement := mkRat 39 10
    crafting_require_exact_resource_type := false }

/-- A parsed engram entry. -/
def sampleEngramEntry : EngramEntryData :=
  { engram_class_name := "EngramEntry_Item_C"
    required_level := 5
    required_engram_points := 10 }

/-- A parsed blueprintable item with one crafting requirement. -/
def sampleItemWithReq : PrimalItemData :=
  { primal_item_path := "/Game/Item_C.Item"
    primal_item_name := "Item"
    blueprintable := true
    stack_size := 100
    crafting_requirements := [sampleReq] }

/-- The same item with the blueprintable flag cleared. -/
def sampleItemNoBp : PrimalItemData :=
  { sampleItemWithReq with blueprintable := false }

/-- The simplified projection of the sample record. -/
def sampleStdEngram : StandardEngram :=
  standardEngramOf sampleEngramEntry sampleItemWithReq

/-- An initially empty file system. -/
def fs0 : FS := { nextTmp := 0, dirs := [], files := [] }

/-- A backing item whose full asset path is `/Game/Item_C.Item_C`. -/
def sampleRawItem : PrimalItemRaw :=
  { path_name := "/Game/Item_C.Item_C"
    descriptive_name_base := "Item"
    can_be_blueprint := false
    max_item_quantity := 1
    base_crafting_resource_requirements := [] }


/-! ### General lemmas about the embedding -/

set_option maxRecDepth 400000

/-- `uuid_from_path` is the hash of the first matching prefix's pack id. -/
theorem uuid_from_path_eq_firstMatch (ow : List (String × String))
    (p : String) :
    uuid_from_path ow p = (firstMatchId ow p).map
      (fun cid => uuid5 (pyLower cid ++ ":" ++ pyLower p)) := by
  induction ow with
  | nil => rfl
  | cons hd tl ih =>
      obtain ⟨pfx, cid⟩ := hd
      simp only [uuid_from_path, firstMatchId]
      split
      · rfl
      · exact ih

/-- Python `startswith` is transitive. -/
theorem pyStartswith_trans {a b c : String}
    (h1 : pyStartswith a b = true) (h2 : pyStartswith b c = true) :
    pyStartswith a c = true := by
  simp only [pyStartswith, List.isPrefixOf_iff_prefix] at h1 h2 ⊢
  exact h2.trans h1

/-- Folding repeated append-of-one-element is append of the mapped list. -/
theorem foldl_append_singleton {α β : Type _} (f : α → β) (recs : List α)
    (init : List β) :
    recs.foldl (fun acc r => acc ++ [f r]) init = init ++ recs.map f := by
  induction recs generalizing init with
  | nil => simp
  | cons r rs ih => simp [ih]

/-- C5: for every path that matches no prefix of the ownership mapping,
`uuid_from_path` returns `None` (and, being a total function, never
raises); callers receive the null value. -/
theorem uuid_from_path_no_match_none (ow : List (String × String))
    (path : String) (h : ∀ pr ∈ ow, pyStartswith path pr.1 = false) :
    uuid_from_path ow path = none := by
  induction ow with
  | nil => rfl
  | cons hd tl ih =>
      obtain ⟨pfx, cid⟩ := hd
      simp only [uuid_from_path]
      rw [h (pfx, cid) (List.mem_cons_self _ _)]
      simp only [Bool.false_eq_true, if_false]
      exact ih (fun pr hpr => h pr (List.mem_cons_of_mem _ hpr))

/-- Witness for C5 at the initial ownership table and an unowned path. -/
theorem uuid_from_path_no_match_none_witness :
    uuid_from_path baseContentPackIds "/Mods/Widget" = none :=
  uuid_from_path_no_match_none baseContentPackIds "/Mods/Widget" (by decide)

/-- C4 fails as stated: prefix matching in `uuid_from_path` is
case-sensitive, so changing only the case of characters inside the matched
prefix changes the derived identifier.  With ownership
`[("/Game/", "A")]`, the paths `/Game/X` and `/game/X` differ only in
case, yet the first derives an identifier and the second derives `None`. -/
theorem uuid_case_change_counterexample :
    pyLower "/Game/X" = pyLower "/game/X" ∧
    uuid_from_path [("/Game/", "A")] "/Game/X" ≠
      uuid_from_path [("/Game/", "A")] "/game/X" := by
  constructor
  · decide
  · decide

/-- C4 (amended): identifier derivation is a pure function, so identical
`(ownership, path)` inputs yield identical identifiers; and changing the
case of path characters does not change the derived identifier provided the
original and the modified path still match the same first ownership entry
(prefix matching itself is case-sensitive). -/
theorem uuid_from_path_deterministic_case_insensitive
    (ow : List (String × String)) (p q : String)
    (hcase : pyLower p = pyLower q)
    (hmatch : firstMatchId ow p = firstMatchId ow q) :
    uuid_from_path ow p = uuid_from_path ow q := by
  rw [uuid_from_path_eq_firstMatch, uuid_from_path_eq_firstMatch,
    hmatch, hcase]

/-- Witness for amended C4: case differences after the matched prefix. -/
theorem uuid_from_path_case_witness :
    uuid_from_path [("/Game/", "A")] "/Game/Item" =
      uuid_from_path [("/Game/", "A")] "/Game/ITEM" :=
  uuid_from_path_deterministic_case_insensitive [("/Game/", "A")]
    "/Game/Item" "/Game/ITEM" (by decide) (by decide)

/-! ### C1: the truncation scenario -/

/-- C1 fails as stated: removing the trailing two-character type-qualifier
suffix from the full asset path `/Game/Item_C.Item_C` yields
`/Game/Item_C.Item`, not `/Game/Item_C`, and under ownership
`[("/Game/", "A")]` the derived identifier is not the v5 UUID of
`a:/game/item_c`. -/
theorem truncation_scenario_counterexample :
    (parse_primal_item sampleRawItem).primal_item_path ≠ "/Game/Item_C" ∧
    uuid_from_path [("/Game/", "A")]
        (parse_primal_item sampleRawItem).primal_item_path ≠
      some (uuid5 "a:/game/item_c") := by
  constructor
  · decide
  · decide

/-- C1 (amended): for a backing item with full asset path
`/Game/Item_C.Item_C` under ownership `[("/Game/", "A")]`, the path used
for identifier derivation is the full path with the trailing two
characters removed, `/Game/Item_C.Item`, and the derived identifier is the
version-5 UUID over the fixed namespace and the lowercased string
`a:/game/item_c.item`. -/
theorem truncation_scenario_amended :
    (parse_primal_item sampleRawItem).primal_item_path = "/Game/Item_C.Item" ∧
    uuid_from_path [("/Game/", "A")]
        (parse_primal_item sampleRawItem).primal_item_path =
      some (uuid5 "a:/game/item_c.item") ∧
    uuid5 "a:/game/item_c.item" = "794a976f-68e1-57f7-bf65-92a910c0d03a" := by
  refine ⟨by decide, by decide, by decide⟩

/-! ### C10: shadowing of the user-supplied content-pack entry -/

/-- In beacon mode, a mod root that is not literally one of the base keys
is appended after the two base entries. -/
theorem beaconContentPackIds_no_base_key (modRoot cid : String)
    (h1 : modRoot ≠ "/Game/") (h2 : modRoot ≠ "/Packs/") :
    beaconContentPackIds modRoot cid =
      baseContentPackIds ++ [(modRoot, cid)] := by
  simp [beaconContentPackIds, dictInsert, baseContentPackIds,
    Ne.symm h1, Ne.symm h2]

/-- C10: the base prefixes are inserted before the user-supplied mod root
and `uuid_from_path` takes the first match in insertion order, so (i) when
the mod root is not literally a base key, every path starting with
`/Game/` or `/Packs/` derives from the fixed base content-pack id; (ii)
when the mod root properly extends a base prefix, the user entry is never
consulted (derivation agrees with the base table alone); (iii) only a mod
root literally equal to `/Game/` replaces the base entry and routes
`/Game/`-paths to the user-supplied content-pack id. -/
theorem beacon_base_entries_shadow_user (modRoot cid path : String) :
    (modRoot ≠ "/Game/" → modRoot ≠ "/Packs/" →
      (pyStartswith path "/Game/" = true ∨ pyStartswith path "/Packs/" = true) →
      uuid_from_path (beaconContentPackIds modRoot cid) path =
        some (uuid5 (pyLower BASE_CONTENT_PACK_ID ++ ":" ++ pyLower path))) ∧
    ((pyStartswith modRoot "/Game/" = true ∨ pyStartswith modRoot "/Packs/" = true) →
      modRoot ≠ "/Game/" → modRoot ≠ "/Packs/" →
      uuid_from_path (beaconContentPackIds modRoot cid) path =
        uuid_from_path baseContentPackIds path) ∧
    (modRoot = "/Game/" → pyStartswith path "/Game/" = true →
      uuid_from_path (beaconContentPackIds modRoot cid) path =
        some (uuid5 (pyLower cid ++ ":" ++ pyLower path))) := by
  refine ⟨?_, ?_, ?_⟩
  · intro h1 h2 h3
    rw [beaconContentPackIds_no_base_key modRoot cid h1 h2]
    rcases h3 with hg | hp
    · simp [baseContentPackIds, uuid_from_path, hg]
    · by_cases hg : pyStartswith path "/Game/" = true
      · simp [baseContentPackIds, uuid_from_path, hg]
      · simp [baseContentPackIds, uuid_from_path, hg, hp]
  · intro hroot h1 h2
    rw [beaconContentPackIds_no_base_key modRoot cid h1 h2]
    by_cases hg : pyStartswith path "/Game/" = true
    · simp [baseContentPackIds, uuid_from_path, hg]
    · by_cases hp : pyStartswith path "/Packs/" = true
      · simp [baseContentPackIds, uuid_from_path, hg, hp]
      · have hm : pyStartswith path modRoot = false := by
          by_contra hmm
          rw [Bool.not_eq_false] at hmm
          rcases hroot with hrg | hrp
          · exact hg (pyStartswith_trans hmm hrg)
          · exact hp (pyStartswith_trans hmm hrp)
        simp [baseContentPackIds, uuid_from_path, hg, hp, hm]
  · intro hroot hg
    subst hroot
    simp [beaconContentPackIds, dictInsert, baseContentPackIds,
      uuid_from_path, hg]

/-- Witness for C10: a typical mod root `/Game/Mods/MyMod` is shadowed for
`/Game/`-paths; appending a root outside the base prefixes routes its
paths to the user id; a root literally `/Game/` replaces the base entry. -/
theorem beacon_base_entries_shadow_user_witness :
    uuid_from_path (beaconContentPackIds "/Game/Mods/MyMod" "feed") "/Game/A" =
      some (uuid5 (pyLower BASE_CONTENT_PACK_ID ++ ":" ++ pyLower "/Game/A")) ∧
    uuid_from_path (beaconContentPackIds "/Game/Mods/MyMod" "feed") "/Game/A" =
      uuid_from_path baseContentPackIds "/Game/A" ∧
    uuid_from_path (beaconContentPackIds "/Game/" "feed") "/Game/A" =
      some (uuid5 (pyLower "feed" ++ ":" ++ pyLower "/Game/A")) :=
  ⟨(beacon_base_entries_shadow_user "/Game/Mods/MyMod" "feed" "/Game/A").1
      (by decide) (by decide) (Or.inl (by decide)),
    (beacon_base_entries_shadow_user "/Game/Mods/MyMod" "feed" "/Game/A").2.1
      (Or.inl (by decide)) (by decide) (by decide),
    (beacon_base_entries_shadow_user "/Game/" "feed" "/Game/A").2.2
      rfl (by decide)⟩

/-! ### C6, C7, C8, C9, C3, C2 -/

/-- C6: for every builder variant, accumulation only appends the projected
record to the internal ordered sequence, and the finalized output lists the
records in accumulation order (the beacon and generic documents embed the
accumulated list unchanged; the CSV data rows are the accumulated list
mapped to rows in order). -/
theorem accumulation_appends_in_order :
    (∀ (env : ModEnv) (now : Rat) (init : List BeaconEngram)
        (recs : List (EngramEntryData × PrimalItemData)),
      recs.foldl (fun acc r => BeaconBuilder.add_engram env now acc r.1 r.2)
          init =
        init ++ recs.map (fun r => beaconEngramOf env now r.1 r.2)) ∧
    (∀ (init : List StandardEngram)
        (recs : List (EngramEntryData × PrimalItemData)),
      recs.foldl (fun acc r => StandardBuilder.add_engram acc r.1 r.2) init =
        init ++ recs.map (fun r => standardEngramOf r.1 r.2)) ∧
    (∀ (env : ModEnv) (now : Rat) (engs : List BeaconEngram),
      (BeaconBuilder.build_content env now engs).engrams = engs) ∧
    (∀ engs : List StandardEngram,
      (StandardBuilder.build_content engs).engrams = engs) ∧
    (∀ engs : List StandardEngram,
      (CSVBuilder.rows engs).drop 1 = engs.map csvRowOf) := by
  refine ⟨?_, ?_, fun _ _ _ => rfl, fun _ => rfl, fun _ => rfl⟩
  · intro env now init recs
    simpa only [BeaconBuilder.add_engram] using
      foldl_append_singleton (fun r => beaconEngramOf env now r.1 r.2)
        recs init
  · intro init recs
    simpa only [StandardBuilder.add_engram] using
      foldl_append_singleton (fun r => standardEngramOf r.1 r.2) recs init

/-- C7: the package-schema engram built on accumulation carries exactly one
tag when the record is blueprintable and an empty tags list otherwise. -/
theorem beacon_tags_blueprintable (env : ModEnv) (now : Rat)
    (engram : EngramEntryData) (item : PrimalItemData) :
    (item.blueprintable = true →
      (beaconEngramOf env now engram item).tags = ["blueprintable"] ∧
        (beaconEngramOf env now engram item).tags.length = 1) ∧
    (item.blueprintable = false →
      (beaconEngramOf env now engram item).tags = []) := by
  constructor <;> intro h <;> simp [beaconEngramOf, h]

/-- Witness for C7 on the sample record, with the flag set and cleared. -/
theorem beacon_tags_blueprintable_witness :
    (beaconEngramOf sampleEnv 0 sampleEngramEntry sampleItemWithReq).tags =
      ["blueprintable"] ∧
    (beaconEngramOf sampleEnv 0 sampleEngramEntry sampleItemNoBp).tags = [] :=
  ⟨((beacon_tags_blueprintable sampleEnv 0 sampleEngramEntry
      sampleItemWithReq).1 (by decide)).1,
    (beacon_tags_blueprintable sampleEnv 0 sampleEngramEntry
      sampleItemNoBp).2 (by decide)⟩

/-- C8: both builders store the base resource requirement coerced by
`int(..)`; on nonnegative quantities this is the floor, so the stored
quantity is within one below the base quantity (truncation, not rounding);
in particular `3.9` normalizes to `3` (and `-3.9` to `-3`: truncation is
toward zero). -/
theorem quantity_truncation (cr : CraftingRequirementData) (env : ModEnv)
    (q : Rat) :
    (beaconRequirementOf env cr).quantity =
      pyInt cr.base_resource_requirement ∧
    (standardRequirementOf cr).quantity =
      pyInt cr.base_resource_requirement ∧
    (0 ≤ q → pyInt q = ⌊q⌋ ∧ (pyInt q : Rat) ≤ q ∧ q - 1 < (pyInt q : Rat)) ∧
    pyInt (mkRat 39 10) = 3 ∧ pyInt (-(mkRat 39 10)) = -3 := by
  refine ⟨rfl, rfl, ?_, by decide, by decide⟩
  intro hq
  have hfloor : pyInt q = ⌊q⌋ := by
    rw [pyInt, Int.tdiv_eq_ediv (Rat.num_nonneg.mpr hq)
      (Int.natCast_nonneg q.den), Rat.floor_def]
  refine ⟨hfloor, ?_, ?_⟩
  · rw [hfloor]; exact Int.floor_le q
  · rw [hfloor]; exact Int.sub_one_lt_floor q

/-- Witness for C8 at the sample requirement and quantity `3.9`. -/
theorem quantity_truncation_witness :
    (standardRequirementOf sampleReq).quantity =
      pyInt sampleReq.base_resource_requirement ∧
    pyInt (mkRat 39 10) = ⌊mkRat 39 10⌋ ∧
    pyInt (mkRat 39 10) = 3 :=
  ⟨(quantity_truncation sampleReq sampleEnv (mkRat 39 10)).2.1,
    ((quantity_truncation sampleReq sampleEnv (mkRat 39 10)).2.2.1
      (by decide)).1,
    (quantity_truncation sampleReq sampleEnv (mkRat 39 10)).2.2.2.1⟩

/-- C9: the CSV output has one header row plus one row per accumulated
record, and each record's recipe cell is the newline-join of one formatted
line per crafting requirement, in recipe order. -/
theorem csv_row_and_recipe_counts (engs : List StandardEngram) :
    (CSVBuilder.rows engs).length = engs.length + 1 ∧
    ∀ e ∈ engs,
      (csvRowOf e).getD 6 "" =
          String.intercalate "\n" (e.recipe.map csvIngredientLine) ∧
        (e.recipe.map csvIngredientLine).length = e.recipe.length := by
  refine ⟨by simp [CSVBuilder.rows], ?_⟩
  intro e _
  exact ⟨rfl, by simp⟩

/-- Witness for C9 on a one-record accumulation. -/
theorem csv_row_and_recipe_counts_witness :
    (CSVBuilder.rows [sampleStdEngram]).length = 2 ∧
    (csvRowOf sampleStdEngram).getD 6 "" =
      String.intercalate "\n" (sampleStdEngram.recipe.map csvIngredientLine) :=
  ⟨(csv_row_and_recipe_counts [sampleStdEngram]).1,
    ((csv_row_and_recipe_counts [sampleStdEngram]).2 sampleStdEngram
      (by simp)).1⟩

/-- C3 fails as stated: the generic (standard) JSON builder itself resolves
each requirement's resource display name during accumulation
(`friendly_resource_name` via `PrimalItem(resource_item_type)`), so the
finalized generic document carries the resolved name — here `Stone` — not
a projection without display names; the resolution is not special to the
CSV format. -/
theorem standard_resolves_names_counterexample :
    (StandardBuilder.build_content (StandardBuilder.add_engram []
        sampleEngramEntry sampleItemWithReq)).engrams.map
      (fun e => e.recipe.map (fun r => r.friendly_resource_name)) =
      [["Stone"]] := by
  decide

/-- C3 (amended): the display-name resolution happens in the accumulation
shared by the generic and CSV builders: every stored requirement's
`friendly_resource_name` equals the descriptive name of the resource's own
item-default object, and the CSV recipe cell is built from these stored
resolved names. -/
theorem standard_accumulation_resolves_names (engram : EngramEntryData)
    (item : PrimalItemData) :
    (standardEngramOf engram item).recipe.map
        (fun r => r.friendly_resource_name) =
      item.crafting_requirements.map
        (fun cr => resourcePrimalItemName cr.resource_item_type) ∧
    csvRecipeCell (standardEngramOf engram item) =
      String.intercalate "\n" (item.crafting_requirements.map (fun cr =>
        resourcePrimalItemName cr.resource_item_type ++ " x" ++
          toString (pyInt cr.base_resource_requirement) ++ " (Exact: " ++
          pyBoolStr cr.crafting_require_exact_resource_type ++ ")")) := by
  constructor
  · simp [standardEngramOf, standardRequirementOf, List.map_map,
      Function.comp]
  · simp only [csvRecipeCell, standardEngramOf, List.map_map]
    rfl

/-- C2: evaluation of `BeaconBuilder.dump` at the failing input.  The
claim states the intended contract (scoped release of the temporary
directory on every exit path, no archive left at the destination on
failure), but the source has no `try`/`finally`: when archive creation
raises, the error propagates while the temporary directory is still on
disk and a partial archive file exists at the destination path; only the
successful exit path removes the directory. -/
theorem beacon_dump_write_failure_behavior :
    (BeaconBuilder.dump sampleEnv true fs0).1 =
      Except.error "write failure" ∧
    (BeaconBuilder.dump sampleEnv true fs0).2.dirs = ["/tmp/beacon0"] ∧
    (BeaconBuilder.dump sampleEnv true fs0).2.files.contains
      "/out/MyMod.beacondata" = true ∧
    (BeaconBuilder.dump sampleEnv false fs0).2.dirs = [] := by
  refine ⟨rfl, rfl, by decide, rfl⟩
